import Mathlib

/-!
Verification of the `icon_menu_site` repository (`app/main.py`, `app/models.py`):
a FastAPI menu/signage manager with four SQLModel tables (User, Item,
RouteSet, RouteItem), cookie-flag admin authentication, and a public
route-rendering view.

The embedding below translates the handlers of `app/main.py` into pure Lean
functions over an explicit database state.  SQL statements become list
operations: `select ... .first()` is `List.filter`/`List.head?`,
`session.get(Model, pk)` is `List.find?` on the primary key,
`delete ... where` is `List.filter` with the negated condition, `order_by`
is a sort by the ordering column, and an `INSERT` appends a row carrying the next
auto-increment primary key.  The UNIQUE constraint declared on
`RouteSet.route` in `app/models.py` (`Field(unique=True)`) is enforced, as
SQLite enforces it, at the commit that writes a `RouteSet` row: a conflicting
write raises `IntegrityError` and the transaction's pending changes are
rolled back.  Uncaught Python exceptions (AttributeError on `None`,
ValueError from `int()`, IntegrityError) are a `pyError` response; the
session context manager of `get_session` rolls back whatever was added after
the last successful commit.
-/

/-- `User` table row (`app/models.py`). -/
structure User where
  id : Int
  username : String
  hashed_password : String
deriving DecidableEq, Repr

/-- `Item` table row (`app/models.py`). -/
structure Item where
  id : Int
  label : String
  qr_text : String
  image_path : String
deriving DecidableEq, Repr

/-- `RouteSet` table row (`app/models.py`); `route` carries a UNIQUE constraint. -/
structure RouteSet where
  id : Int
  route : String
  title : String
  rows : Int
  cols : Int
  timeout : Int
  background_path : Option String
deriving DecidableEq, Repr

/-- `RouteItem` table row (`app/models.py`): one ordered slot of a route. -/
structure RouteItem where
  id : Int
  route_id : Int
  item_id : Int
  position : Int
deriving DecidableEq, Repr

/-- The persistent database state: the four tables plus the auto-increment
counters for the two tables the handlers insert into. -/
structure DB where
  users : List User
  items : List Item
  routesets : List RouteSet
  routeitems : List RouteItem
  nextRouteSetId : Int
  nextRouteItemId : Int
deriving DecidableEq, Repr

/-- Environment configuration read once at startup (`main.py` lines 17-19):
`DEFAULT_ROUTE = os.getenv("DEFAULT_ROUTE", "menu1")` and
`INACTIVITY_TIMEOUT = int(os.getenv("INACTIVITY_TIMEOUT", "60000"))`. -/
structure Config where
  DEFAULT_ROUTE : String
  INACTIVITY_TIMEOUT : Int
deriving DecidableEq, Repr

/-- The part of a FastAPI `Request` the handlers read: the cookie jar. -/
structure Request where
  cookies : List (String × String)
deriving DecidableEq, Repr

/-- `request.cookies.get(key)`: first cookie with the given name, if any. -/
def cookiesGet (cs : List (String × String)) (k : String) : Option String :=
  (cs.find? (fun p => p.1 == k)).map (fun p => p.2)

/-- `is_authenticated` (`main.py` lines 61-62):
`request.cookies.get("auth") == "true"`. -/
def is_authenticated (req : Request) : Bool :=
  cookiesGet req.cookies "auth" == some "true"

/-- An uploaded file as the handlers see it; `File(None)` parameters are
`Option UploadFile`, and Python's truthiness test `image and image.filename`
is `some f` with `f.filename ≠ ""`. -/
structure UploadFile where
  filename : String
deriving DecidableEq, Repr

/-- A `Set-Cookie` emitted with a response (`resp.set_cookie`). -/
structure Cookie where
  key : String
  value : String
  httponly : Bool
deriving DecidableEq, Repr

/-- The responses the embedded handlers can produce.  `redirect` is a
`RedirectResponse` (FastAPI's default status is 307 when `status_code` is
omitted) together with any cookie set on it; `html` is a plain
`HTMLResponse` with a status (no cookie is ever set on one in this code);
`template` is a rendered `TemplateResponse`; `httpError` is a raised
`HTTPException`; `pyError` is an uncaught Python exception escaping the
handler. -/
inductive Response where
  | redirect (url : String) (status : Int) (cookie : Option Cookie)
  | html (status : Int)
  | template (name : String)
  | httpError (status : Int) (detail : String)
  | pyError (msg : String)
deriving DecidableEq, Repr

/-- `login` (`main.py` lines 75-90).  `bcrypt.verify` is the external
passlib primitive, abstracted as the `verify` parameter.  The handler takes
the first `User` whose `username` matches; on a verified password it
redirects (302) to `/admin` with the HTTP-only cookie `auth=true`, otherwise
it returns a 401 `HTMLResponse` (which sets no cookie). -/
def login (verify : String → String → Bool) (db : DB)
    (username password : String) : Response :=
  match (db.users.filter (fun u => u.username == username)).head? with
  | some user =>
      if verify password user.hashed_password then
        Response.redirect "/admin" 302 (some ⟨"auth", "true", true⟩)
      else
        Response.html 401
  | none => Response.html 401

/-- `delete_item` (`main.py` lines 163-168).  Faithful to the source: the
handler signature has no `Request` parameter and performs no
`is_authenticated` check.  It deletes every `RouteItem` with this `item_id`,
then the `Item` row itself, commits, and redirects (302) to `/admin/items`. -/
def delete_item (db : DB) (item_id : Int) : DB × Response :=
  let db1 := { db with routeitems := db.routeitems.filter (fun ri => ri.item_id != item_id) }
  let db2 := { db1 with items := db1.items.filter (fun it => it.id != item_id) }
  (db2, Response.redirect "/admin/items" 302 none)

/-- `edit_item` (`main.py` lines 139-161).  `session.get(Item, item_id)` on
a missing id yields `None`, and the unguarded `item.label = label` then
raises `AttributeError`.  On an existing id, `label` and `qr_text` are
overwritten unconditionally and `image_path` only when a non-empty upload
was provided. -/
def edit_item (req : Request) (db : DB) (item_id : Int)
    (label qr_text : String) (image : Option UploadFile) : DB × Response :=
  if is_authenticated req then
    match db.items.find? (fun it => it.id == item_id) with
    | none =>
        (db, Response.pyError "AttributeError: NoneType object has no attribute label")
    | some item =>
        let item1 := { item with label := label, qr_text := qr_text }
        let item2 :=
          match image with
          | some f =>
              if f.filename ≠ "" then
                { item1 with image_path := "/media/icons/" ++ f.filename }
              else item1
          | none => item1
        ({ db with items := db.items.map (fun it => if it.id == item_id then item2 else it) },
         Response.redirect "/admin/items" 302 none)
  else
    (db, Response.redirect "/login" 307 none)

/-- `add_route` (`main.py` lines 178-207).  The commit of the new `RouteSet`
enforces the UNIQUE constraint on `route`: a duplicate key raises
`IntegrityError` and leaves the database unchanged; otherwise the row is
inserted with the next primary key and the handler redirects (302) to
`/admin/routes`. -/
def add_route (req : Request) (db : DB) (route title : String)
    (rows cols timeout : Int) (background : Option UploadFile) : DB × Response :=
  if is_authenticated req then
    let bg_path : Option String :=
      match background with
      | some f => if f.filename ≠ "" then some ("/media/backgrounds/" ++ f.filename) else none
      | none => none
    if db.routesets.any (fun r => r.route == route) then
      (db, Response.pyError "IntegrityError: UNIQUE constraint failed: routeset.route")
    else
      ({ db with
          routesets := db.routesets ++ [⟨db.nextRouteSetId, route, title, rows, cols, timeout, bg_path⟩],
          nextRouteSetId := db.nextRouteSetId + 1 },
       Response.redirect "/admin/routes" 302 none)
  else
    (db, Response.redirect "/login" 307 none)

/-- `edit_route_form` (`main.py` lines 209-216): 404 `HTTPException` when
`session.get(RouteSet, route_id)` is `None`, otherwise renders the edit
form. -/
def edit_route_form (req : Request) (db : DB) (route_id : Int) : Response :=
  if is_authenticated req then
    match db.routesets.find? (fun r => r.id == route_id) with
    | none => Response.httpError 404 "Route not found"
    | some _ => Response.template "edit_route.html"
  else
    Response.redirect "/login" 307 none

/-- `edit_route` (`main.py` lines 218-248): 404 when the id is missing;
otherwise overwrites `route`, `title`, `rows`, `cols`, `timeout`
unconditionally and `background_path` when a non-empty upload was provided,
then commits.  The commit enforces the UNIQUE constraint on `route`: if a
different `RouteSet` row already holds the submitted key, the commit raises
`IntegrityError` and the update is rolled back. -/
def edit_route (req : Request) (db : DB) (route_id : Int) (route title : String)
    (rows cols timeout : Int) (background : Option UploadFile) : DB × Response :=
  if is_authenticated req then
    match db.routesets.find? (fun r => r.id == route_id) with
    | none => (db, Response.httpError 404 "Route not found")
    | some rs =>
        let rs1 := { rs with route := route, title := title, rows := rows,
                             cols := cols, timeout := timeout }
        let rs2 :=
          match background with
          | some f =>
              if f.filename ≠ "" then
                { rs1 with background_path := some ("/media/backgrounds/" ++ f.filename) }
              else rs1
          | none => rs1
        if db.routesets.any (fun r => r.id != route_id && r.route == route) then
          (db, Response.pyError "IntegrityError: UNIQUE constraint failed: routeset.route")
        else
          ({ db with routesets := db.routesets.map (fun r => if r.id == route_id then rs2 else r) },
           Response.redirect "/admin/routes" 302 none)
  else
    (db, Response.redirect "/login" 307 none)

/-- The first code points of the 66 runs of ten consecutive Unicode decimal
digits (category Nd, digit values 0-9 in order), as CPython 3.11's
`unicodedata` tables have them; `int()` accepts exactly these as digits. -/
def decDigitStarts : List Nat :=
  [48, 1632, 1776, 1984, 2406, 2534, 2662, 2790, 2918, 3046, 3174, 3302,
   3430, 3558, 3664, 3792, 3872, 4160, 4240, 6112, 6160, 6470, 6608, 6784,
   6800, 6992, 7088, 7232, 7248, 42528, 43216, 43264, 43472, 43504, 43600,
   44016, 65296, 66720, 68912, 69734, 69872, 69942, 70096, 70384, 70736,
   70864, 71248, 71360, 71472, 71904, 72016, 72784, 73040, 73120, 92768,
   92864, 93008, 120782, 120792, 120802, 120812, 120822, 123200, 123632,
   125264, 130032]

/-- The decimal value of a Unicode decimal digit: its offset inside the run
of ten that contains it; `none` for every other character. -/
def decDigitVal (c : Char) : Option Nat :=
  (decDigitStarts.find? (fun b => decide (b ≤ c.toNat) && decide (c.toNat < b + 10))).map
    (fun b => c.toNat - b)

/-- The code points CPython's `str.isspace` (`Py_UNICODE_ISSPACE`) accepts;
`int()` strips exactly these around the number. -/
def pySpaceCodes : List Nat :=
  [9, 10, 11, 12, 13, 28, 29, 30, 31, 32, 133, 160, 5760, 8192, 8193, 8194,
   8195, 8196, 8197, 8198, 8199, 8200, 8201, 8202, 8232, 8233, 8239, 8287,
   12288]

/-- Python's whitespace test used by `int()`'s stripping. -/
def pyIsSpace (c : Char) : Bool :=
  pySpaceCodes.contains c.toNat

/-- The digit values of the part of an `int()` literal after its first
digit: further digits, with single underscores allowed only between two
digits (`int("1_0")` is 10; `"1__0"`, `"1_"` are rejected). -/
def digitsTail : List Char → Option (List Nat)
  | [] => some []
  | c :: rest =>
      if c = '_' then
        match rest with
        | [] => none
        | c2 :: rest2 =>
            match decDigitVal c2 with
            | some d => (digitsTail rest2).map (fun ds => d :: ds)
            | none => none
      else
        match decDigitVal c with
        | some d => (digitsTail rest).map (fun ds => d :: ds)
        | none => none

/-- A non-empty underscore-grouped digit run, evaluated in base 10; the
first character must be a digit (no leading underscore). -/
def parseDigitsU : List Char → Option Nat
  | [] => none
  | c :: rest =>
      match decDigitVal c with
      | none => none
      | some d =>
          (digitsTail rest).map (fun ds => (d :: ds).foldl (fun acc x => acc * 10 + x) 0)

/-- CPython's `int(s)` on a `str`: strip surrounding Unicode whitespace,
then an optional `+`/`-` sign followed by a non-empty run of Unicode
decimal digits with single underscores allowed between digits; anything
else (in particular the empty string) raises `ValueError`, modelled as
`none`. -/
def pyInt (s : String) : Option Int :=
  match ((s.data.dropWhile pyIsSpace).reverse.dropWhile pyIsSpace).reverse with
  | '-' :: ds => (parseDigitsU ds).map (fun n => -(Int.ofNat n))
  | '+' :: ds => (parseDigitsU ds).map (fun n => Int.ofNat n)
  | ds => (parseDigitsU ds).map (fun n => Int.ofNat n)

/-- Python's `str.split(",")`: cut at every comma, keeping empty pieces;
the accumulator carries the current piece reversed.  `"".split(",")` is
`[""]`. -/
def splitCommaAux : List Char → List Char → List String
  | [], acc => [String.mk acc.reverse]
  | c :: rest, acc =>
      if c = ',' then String.mk acc.reverse :: splitCommaAux rest []
      else splitCommaAux rest (c :: acc)

/-- `order.split(",")` of `post_assign`. -/
def pySplitComma (s : String) : List String :=
  splitCommaAux s.data []

/-- The re-insertion loop of `post_assign` (`main.py` lines 274-275):
`for idx, item_id in enumerate(order.split(","), start=1): session.add(
RouteItem(route_id=route_id, item_id=int(item_id), position=idx))`.
Walks the tokens with `pos` starting at 1 and the auto-increment key `nid`;
the first token `int()` rejects aborts the whole batch (`none`), because the
exception escapes before the final commit and the session rolls back every
pending `add`. -/
def insertAll (rid : Int) (toks : List String) (pos : Int) (nid : Int) :
    Option (List RouteItem) :=
  match toks with
  | [] => some []
  | t :: rest =>
      match pyInt t with
      | none => none
      | some i => (insertAll rid rest (pos + 1) (nid + 1)).map (fun rs => ⟨nid, rid, i, pos⟩ :: rs)

/-- Parsing of the whole token list: `some ids` when every token of
`order.split(",")` is accepted by `int()`, `none` as soon as one is not. -/
def parseTokens : List String → Option (List Int)
  | [] => some []
  | t :: rest =>
      match pyInt t with
      | none => none
      | some i => (parseTokens rest).map (fun is => i :: is)

/-- The 1-based position sequence `p, p+1, ..., p+n-1` that
`enumerate(..., start=p)` produces for `n` tokens. -/
def posList (p : Int) : Nat → List Int
  | 0 => []
  | Nat.succ n => p :: posList (p + 1) n

/-- `post_assign` (`main.py` lines 263-277).  After the auth gate it deletes
every `RouteItem` of the route and commits that delete; it then re-inserts
one row per comma-separated token of `order` with `position` the 1-based
index, and commits.  When some token is not an integer, `int()` raises
`ValueError` after the delete was already committed, so the persistent state
keeps the delete and none of the pending inserts. -/
def post_assign (req : Request) (db : DB) (route_id : Int) (order : String) :
    DB × Response :=
  if is_authenticated req then
    let db1 := { db with routeitems := db.routeitems.filter (fun ri => ri.route_id != route_id) }
    match insertAll route_id (pySplitComma order) 1 db1.nextRouteItemId with
    | some rows =>
        ({ db1 with
            routeitems := db1.routeitems ++ rows,
            nextRouteItemId := db1.nextRouteItemId + rows.length },
         Response.redirect ("/admin/routes/" ++ toString route_id ++ "/assign") 302 none)
    | none =>
        (db1, Response.pyError "ValueError: invalid literal for int() with base 10")
  else
    (db, Response.redirect "/login" 307 none)

/-- One rendered entry of the public view (`main.py` line 289):
`{"label": it.label, "qr_text": it.qr_text, "image_path": it.image_path}`. -/
structure ItemData where
  label : String
  qr_text : String
  image_path : String
deriving DecidableEq, Repr

/-- `session.get(Item, l.item_id)` followed by the attribute reads of
`main.py` line 289; `none` when the item row is missing (in which case the
Python code raises `AttributeError` on `None`). -/
def resolveItem (db : DB) (l : RouteItem) : Option ItemData :=
  (db.items.find? (fun it => it.id == l.item_id)).map
    (fun it => ⟨it.label, it.qr_text, it.image_path⟩)

/-- The rendering loop of `main.py` lines 286-289: builds one `ItemData`
per `RouteItem` link in order, resolving each to its `Item`; `none` when
some link's item is missing (the loop then raises `AttributeError`). -/
def renderItems (db : DB) : List RouteItem → Option (List ItemData)
  | [] => some []
  | l :: rest =>
      match resolveItem db l with
      | none => none
      | some d => (renderItems db rest).map (fun ds => d :: ds)

/-- Result of the public view handler: a redirect, a rendered
`view_route.html` with its template context, or an uncaught exception. -/
inductive ViewResult where
  | redirect (url : String) (status : Int)
  | render (route : RouteSet) (items : List ItemData) (inactivity_timeout : Int)
  | pyError (msg : String)
deriving DecidableEq, Repr

/-- `view_route` (`main.py` lines 280-290).  Looks the `RouteSet` up by
exact `route` key; when absent redirects (default 307) to the configured
default route; when present loads the route's `RouteItem` rows ordered by
`position` ascending, resolves each to its `Item`, and renders the grid
with the global `INACTIVITY_TIMEOUT`. -/
def view_route (cfg : Config) (db : DB) (route_name : String) : ViewResult :=
  match (db.routesets.filter (fun r => r.route == route_name)).head? with
  | none => ViewResult.redirect ("/r/" ++ cfg.DEFAULT_ROUTE) 307
  | some route =>
      let links := List.insertionSort (fun a b => a.position ≤ b.position)
        (db.routeitems.filter (fun ri => ri.route_id == route.id))
      match renderItems db links with
      | some items_data => ViewResult.render route items_data cfg.INACTIVITY_TIMEOUT
      | none => ViewResult.pyError "AttributeError: NoneType object has no attribute label"

/-- The position-ordered `RouteItem` list the public view iterates over
(`select(RouteItem).where(route_id==...).order_by(RouteItem.position)`). -/
def sortedLinks (db : DB) (rs : RouteSet) : List RouteItem :=
  List.insertionSort (fun a b => a.position ≤ b.position)
    (db.routeitems.filter (fun ri => ri.route_id == rs.id))

instance : IsTotal RouteItem (fun a b => a.position ≤ b.position) :=
  ⟨fun a b => Int.le_total a.position b.position⟩

instance : IsTrans RouteItem (fun a b => a.position ≤ b.position) :=
  ⟨fun _ _ _ hab hbc => le_trans hab hbc⟩

/-- A request carrying the admin capability cookie. -/
def reqAuth : Request := ⟨[("auth", "true")]⟩

/-- A shared concrete database used to exhibit the theorems on concrete
inputs: one admin user, three items, two routes, and three assignment rows
(items 1 and 2 on route 1, item 1 on route 2). -/
def dbW : DB :=
  { users := [⟨1, "admin", "hash"⟩]
  , items := [⟨1, "A", "qa", "/media/icons/a.png"⟩,
              ⟨2, "B", "qb", "/media/icons/b.png"⟩,
              ⟨3, "C", "qc", "/media/icons/c.png"⟩]
  , routesets := [⟨1, "menu1", "t", 2, 3, 5, none⟩,
                  ⟨2, "menu2", "t2", 1, 1, 7, none⟩]
  , routeitems := [⟨10, 1, 1, 1⟩, ⟨11, 1, 2, 2⟩, ⟨12, 2, 1, 1⟩]
  , nextRouteSetId := 3
  , nextRouteItemId := 13 }

/-- The configuration with the source defaults (`menu1`, 60000 ms). -/
def cfgW : Config := ⟨"menu1", 60000⟩

/-! ### Helper lemmas -/

theorem posList_mem {n : Nat} {p x : Int} (h : x ∈ posList p n) : p ≤ x := by
  induction n generalizing p with
  | zero => simp [posList] at h
  | succ n ih =>
      simp only [posList, List.mem_cons] at h
      rcases h with rfl | h
      · exact le_refl x
      · have := ih h
        omega

theorem posList_pairwise {n : Nat} {p : Int} :
    List.Pairwise (fun a b : Int => a < b) (posList p n) := by
  induction n generalizing p with
  | zero => simp [posList]
  | succ n ih =>
      refine List.pairwise_cons.mpr ⟨fun x hx => ?_, ih⟩
      have := posList_mem hx
      omega

theorem insertAll_eq_none (rid : Int) {toks : List String}
    (h : parseTokens toks = none) :
    ∀ pos nid : Int, insertAll rid toks pos nid = none := by
  induction toks with
  | nil => simp [parseTokens] at h
  | cons t rest ih =>
      intro pos nid
      simp only [parseTokens] at h
      simp only [insertAll]
      cases hp : pyInt t with
      | none => rfl
      | some i =>
          rw [hp] at h
          cases hr : parseTokens rest with
          | none => rw [ih hr (pos + 1) (nid + 1)]; rfl
          | some is => rw [hr] at h; simp at h

theorem insertAll_eq_some {toks : List String} {ids : List Int} {rid : Int}
    (h : parseTokens toks = some ids) :
    ∀ pos nid : Int, ∃ rows : List RouteItem,
      insertAll rid toks pos nid = some rows ∧
      rows.map (fun r => r.item_id) = ids ∧
      rows.map (fun r => r.position) = posList pos ids.length ∧
      (∀ r ∈ rows, r.route_id = rid) := by
  induction toks generalizing ids with
  | nil =>
      simp only [parseTokens, Option.some.injEq] at h
      subst h
      intro pos nid
      exact ⟨[], rfl, rfl, rfl, by simp⟩
  | cons t rest ih =>
      intro pos nid
      simp only [parseTokens] at h
      cases hp : pyInt t with
      | none => rw [hp] at h; simp at h
      | some i =>
          rw [hp] at h
          cases hr : parseTokens rest with
          | none => rw [hr] at h; simp at h
          | some is =>
              rw [hr] at h
              simp only [Option.map_some', Option.some.injEq] at h
              subst h
              obtain ⟨rows, h1, h2, h3, h4⟩ := ih hr (pos + 1) (nid + 1)
              refine ⟨⟨nid, rid, i, pos⟩ :: rows, ?_, ?_, ?_, ?_⟩
              · simp only [insertAll, hp, h1, Option.map_some']
              · simp [h2]
              · simp only [List.map_cons, List.length_cons, posList, h3]
              · intro r hmem
                rcases List.mem_cons.mp hmem with rfl | hmem'
                · rfl
                · exact h4 r hmem'

theorem renderItems_forall2 {db : DB} :
    ∀ {links : List RouteItem} {datas : List ItemData},
      renderItems db links = some datas →
      List.Forall₂ (fun l d => resolveItem db l = some d) links datas := by
  intro links
  induction links with
  | nil =>
      intro datas h
      simp only [renderItems, Option.some.injEq] at h
      subst h
      exact List.Forall₂.nil
  | cons l rest ih =>
      intro datas h
      simp only [renderItems] at h
      cases hres : resolveItem db l with
      | none => rw [hres] at h; simp at h
      | some d =>
          rw [hres] at h
          cases hrest : renderItems db rest with
          | none => rw [hrest] at h; simp at h
          | some ds =>
              rw [hrest] at h
              simp only [Option.map_some', Option.some.injEq] at h
              subst h
              exact List.Forall₂.cons hres (ih hrest)

theorem filter_username_head {l : List User} {u : String} {user : User}
    (huniq : l.Pairwise (fun a b => a.username ≠ b.username))
    (hmem : user ∈ l) (hname : user.username = u) :
    (l.filter (fun x => x.username == u)).head? = some user := by
  induction l with
  | nil => cases hmem
  | cons a rest ih =>
      obtain ⟨ha, hrest⟩ := List.pairwise_cons.mp huniq
      rcases List.mem_cons.mp hmem with rfl | hmem'
      · simp [List.filter_cons, hname]
      · have hne : (a.username == u) = false := by
          rw [beq_eq_false_iff_ne, ← hname]
          exact ha user hmem'
        simp only [List.filter_cons, hne, Bool.false_eq_true, if_false]
        exact ih hrest hmem'

/-! ### Claim theorems -/

/-- C2 (code bug): the claim says every admin-prefixed endpoint — including
`POST /admin/items/{id}/delete` — answers a request whose `auth` cookie is
absent or not `"true"` with a redirect to `/login` and no state change.  The
source handler `delete_item` (`main.py` lines 163-168) takes no `Request`
and performs no `is_authenticated` check at all, so the deletion happens and
the `/admin/items` redirect is returned no matter what cookies the request
carried: deleting item 1 of `dbW` removes the item and its assignment rows
and does not redirect to `/login`. -/
theorem delete_item_no_auth_gate :
    (delete_item dbW 1).1.items =
      [⟨2, "B", "qb", "/media/icons/b.png"⟩, ⟨3, "C", "qc", "/media/icons/c.png"⟩] ∧
    (delete_item dbW 1).1.routeitems = [⟨11, 1, 2, 2⟩] ∧
    (delete_item dbW 1).2 = Response.redirect "/admin/items" 302 none ∧
    (delete_item dbW 1).2 ≠ Response.redirect "/login" 307 none := by
  decide

/-- C3: for every item id, `POST /admin/items/{id}/delete` removes every
`RouteItem` row whose `item_id` references the item — across all routes —
and the `Item` row itself, leaves every other row in place, and (provided
the store had no dangling references before) leaves no `RouteItem` row
referencing a nonexistent `Item` afterwards. -/
theorem delete_item_cascades (db : DB) (iid : Int)
    (href : ∀ ri ∈ db.routeitems, ∃ it ∈ db.items, it.id = ri.item_id) :
    (delete_item db iid).2 = Response.redirect "/admin/items" 302 none ∧
    (∀ ri ∈ (delete_item db iid).1.routeitems, ri.item_id ≠ iid) ∧
    (∀ it ∈ (delete_item db iid).1.items, it.id ≠ iid) ∧
    (∀ ri ∈ db.routeitems, ri.item_id ≠ iid → ri ∈ (delete_item db iid).1.routeitems) ∧
    (∀ it ∈ db.items, it.id ≠ iid → it ∈ (delete_item db iid).1.items) ∧
    (∀ ri ∈ (delete_item db iid).1.routeitems,
        ∃ it ∈ (delete_item db iid).1.items, it.id = ri.item_id) := by
  refine ⟨rfl, ?_, ?_, ?_, ?_, ?_⟩
  · intro ri hri
    simp only [delete_item, List.mem_filter, bne_iff_ne, ne_eq] at hri
    exact hri.2
  · intro it hit
    simp only [delete_item, List.mem_filter, bne_iff_ne, ne_eq] at hit
    exact hit.2
  · intro ri hri hne
    simp only [delete_item, List.mem_filter, bne_iff_ne, ne_eq]
    exact ⟨hri, hne⟩
  · intro it hit hne
    simp only [delete_item, List.mem_filter, bne_iff_ne, ne_eq]
    exact ⟨hit, hne⟩
  · intro ri hri
    simp only [delete_item, List.mem_filter, bne_iff_ne, ne_eq] at hri ⊢
    obtain ⟨hmem, hne⟩ := hri
    obtain ⟨it, hit, hid⟩ := href ri hmem
    exact ⟨it, ⟨hit, by rw [hid]; exact hne⟩, hid⟩

/-- Concrete input for C3: deleting item 1 of `dbW` (assigned to routes 1
and 2) satisfies every conjunct of `delete_item_cascades`. -/
theorem delete_item_cascades_witness :
    (delete_item dbW 1).2 = Response.redirect "/admin/items" 302 none ∧
    (∀ ri ∈ (delete_item dbW 1).1.routeitems, ri.item_id ≠ 1) ∧
    (∀ it ∈ (delete_item dbW 1).1.items, it.id ≠ 1) ∧
    (∀ ri ∈ dbW.routeitems, ri.item_id ≠ 1 → ri ∈ (delete_item dbW 1).1.routeitems) ∧
    (∀ it ∈ dbW.items, it.id ≠ 1 → it ∈ (delete_item dbW 1).1.items) ∧
    (∀ ri ∈ (delete_item dbW 1).1.routeitems,
        ∃ it ∈ (delete_item dbW 1).1.items, it.id = ri.item_id) :=
  delete_item_cascades dbW 1 (by decide)

/-- C5: whatever route the public view renders, the inactivity timeout
placed in the template context is the global configured
`INACTIVITY_TIMEOUT`, never the per-route stored `timeout` column. -/
theorem view_route_timeout_global (cfg : Config) (db : DB) (name : String)
    (rs : RouteSet) (items : List ItemData) (t : Int)
    (h : view_route cfg db name = ViewResult.render rs items t) :
    t = cfg.INACTIVITY_TIMEOUT := by
  unfold view_route at h
  split at h
  · simp at h
  · dsimp only at h
    split at h
    · injection h with h1 h2 h3
      exact h3.symm
    · simp at h

/-- Concrete input for C5: route `menu1` of `dbW` stores `timeout = 5`, yet
the rendered inactivity timeout is the global 60000 of `cfgW`. -/
theorem view_route_timeout_global_witness :
    (60000 : Int) = cfgW.INACTIVITY_TIMEOUT ∧ (5 : Int) ≠ cfgW.INACTIVITY_TIMEOUT :=
  ⟨view_route_timeout_global cfgW dbW "menu1" ⟨1, "menu1", "t", 2, 3, 5, none⟩
      [⟨"A", "qa", "/media/icons/a.png"⟩, ⟨"B", "qb", "/media/icons/b.png"⟩] 60000 (by decide),
   by decide⟩

/-- C6: with distinct usernames (the declared invariant of the `User`
table), `POST /login` succeeds exactly when a `User` with that username
exists and the password verifies against its stored hash; success is a 302
redirect to `/admin` carrying the HTTP-only cookie `auth=true`, and every
failure — unknown username or wrong password — is a 401 `HTMLResponse`
that sets no cookie. -/
theorem login_spec (verify : String → String → Bool) (db : DB) (u p : String)
    (huniq : db.users.Pairwise (fun a b => a.username ≠ b.username)) :
    ((∃ user ∈ db.users, user.username = u ∧ verify p user.hashed_password = true) →
        login verify db u p = Response.redirect "/admin" 302 (some ⟨"auth", "true", true⟩)) ∧
    ((¬ ∃ user ∈ db.users, user.username = u ∧ verify p user.hashed_password = true) →
        login verify db u p = Response.html 401) := by
  constructor
  · rintro ⟨user, hmem, hname, hver⟩
    unfold login
    rw [filter_username_head huniq hmem hname]
    simp [hver]
  · intro hnone
    unfold login
    cases hh : (db.users.filter (fun x => x.username == u)).head? with
    | none => rfl
    | some user =>
        have hmem' : user ∈ db.users.filter (fun x => x.username == u) :=
          List.mem_of_mem_head? (by rw [hh]; exact rfl)
        obtain ⟨hmem, hbeq⟩ := List.mem_filter.mp hmem'
        have hname : user.username = u := by simpa using hbeq
        have hver : verify p user.hashed_password = false := by
          cases hv : verify p user.hashed_password with
          | false => rfl
          | true => exact absurd ⟨user, hmem, hname, hv⟩ hnone
        simp [hver]

/-- Concrete input for C6: in `dbW` (single user `admin`), the right
password logs in with the auth cookie and a wrong one gets a 401. -/
theorem login_spec_witness :
    login (fun pw h => pw == h) dbW "admin" "hash" =
      Response.redirect "/admin" 302 (some ⟨"auth", "true", true⟩) ∧
    login (fun pw h => pw == h) dbW "admin" "bad" = Response.html 401 :=
  ⟨(login_spec (fun pw h => pw == h) dbW "admin" "hash" (by decide)).1
      ⟨⟨1, "admin", "hash"⟩, by decide, rfl, by decide⟩,
   (login_spec (fun pw h => pw == h) dbW "admin" "bad" (by decide)).2 (by decide)⟩

/-- C8: authenticated `POST /admin/items/{id}/edit` never checks that the
item exists: a missing id makes the handler fail with an `AttributeError`
on the `None` returned by `session.get` (no 404, no silent success), while
an existing id gets `label` and `qr_text` overwritten unconditionally and
`image_path` overwritten exactly when a non-empty file was uploaded. -/
theorem edit_item_spec (req : Request) (db : DB) (iid : Int)
    (label qr_text : String) (image : Option UploadFile)
    (hauth : is_authenticated req = true) :
    (db.items.find? (fun it => it.id == iid) = none →
        edit_item req db iid label qr_text image =
          (db, Response.pyError "AttributeError: NoneType object has no attribute label")) ∧
    (∀ item, db.items.find? (fun it => it.id == iid) = some item →
        ∃ item2,
          edit_item req db iid label qr_text image =
            ({ db with items := db.items.map (fun it => if it.id == iid then item2 else it) },
             Response.redirect "/admin/items" 302 none) ∧
          item2.label = label ∧ item2.qr_text = qr_text ∧ item2.id = item.id ∧
          (∀ f, image = some f → f.filename ≠ "" →
              item2.image_path = "/media/icons/" ++ f.filename) ∧
          ((image = none ∨ image = some ⟨""⟩) → item2.image_path = item.image_path)) := by
  constructor
  · intro hnone
    unfold edit_item
    rw [hauth, hnone]
    simp
  · intro item hfound
    unfold edit_item
    rw [hauth, hfound]
    simp only [if_true]
    cases image with
    | none =>
        exact ⟨{ item with label := label, qr_text := qr_text }, rfl, rfl, rfl, rfl,
          fun f hf => absurd hf (by simp), fun _ => rfl⟩
    | some f =>
        by_cases hf : f.filename = ""
        · refine ⟨{ item with label := label, qr_text := qr_text }, ?_, rfl, rfl, rfl, ?_,
            fun _ => rfl⟩
          · simp [hf]
          · intro g hg hne
            injection hg with hg
            subst hg
            exact absurd hf hne
        · refine ⟨⟨item.id, label, qr_text, "/media/icons/" ++ f.filename⟩, ?_, rfl, rfl, rfl, ?_, ?_⟩
          · simp [hf]
          · intro g hg _
            injection hg with hg
            subst hg
            rfl
          · rintro (h | h)
            · cases h
            · injection h with h
              subst h
              exact absurd rfl hf

/-- Concrete input for C8: `dbW` has no item 99, so an authenticated edit
of item 99 raises rather than returning 404 or succeeding. -/
theorem edit_item_spec_witness :
    edit_item reqAuth dbW 99 "l" "q" none =
      (dbW, Response.pyError "AttributeError: NoneType object has no attribute label") :=
  (edit_item_spec reqAuth dbW 99 "l" "q" none (by decide)).1 (by decide)

/-- C9 counterexample: in `dbW`, route id 2 exists and the request is
authenticated, yet `POST /admin/routes/2/edit` submitting the key `menu1`
(already held by route 1) neither returns 404 nor succeeds with a
redirect: the commit violates the UNIQUE constraint on `routeset.route`
and the handler fails with an `IntegrityError`, the database unchanged. -/
theorem edit_route_claim_cex :
    (dbW.routesets.find? (fun r => r.id == 2)).isSome = true ∧
    is_authenticated reqAuth = true ∧
    (edit_route reqAuth dbW 2 "menu1" "t" 1 1 1 none).2 ≠ Response.httpError 404 "Route not found" ∧
    (edit_route reqAuth dbW 2 "menu1" "t" 1 1 1 none).2 ≠ Response.redirect "/admin/routes" 302 none ∧
    edit_route reqAuth dbW 2 "menu1" "t" 1 1 1 none =
      (dbW, Response.pyError "IntegrityError: UNIQUE constraint failed: routeset.route") := by
  decide

/-- C9 (amended): for authenticated requests, GET and POST
`/admin/routes/{id}/edit` return the explicit 404 error — never a redirect
— exactly when no `RouteSet` with that id exists; when it exists, the POST
succeeds and redirects provided the submitted `route` key is not already
held by a different `RouteSet`, and otherwise fails with a uniqueness
violation that leaves the database unchanged. -/
theorem edit_route_spec (req : Request) (db : DB) (rid : Int) (route title : String)
    (rows cols timeout : Int) (bg : Option UploadFile)
    (hauth : is_authenticated req = true) :
    (edit_route_form req db rid = Response.httpError 404 "Route not found" ↔
        db.routesets.find? (fun r => r.id == rid) = none) ∧
    ((edit_route req db rid route title rows cols timeout bg).2 =
          Response.httpError 404 "Route not found" ↔
        db.routesets.find? (fun r => r.id == rid) = none) ∧
    ((db.routesets.find? (fun r => r.id == rid)).isSome →
        (∀ r ∈ db.routesets, r.id ≠ rid → r.route ≠ route) →
        (edit_route req db rid route title rows cols timeout bg).2 =
          Response.redirect "/admin/routes" 302 none) ∧
    ((db.routesets.find? (fun r => r.id == rid)).isSome →
        (∃ r ∈ db.routesets, r.id ≠ rid ∧ r.route = route) →
        edit_route req db rid route title rows cols timeout bg =
          (db, Response.pyError "IntegrityError: UNIQUE constraint failed: routeset.route")) := by
  refine ⟨?_, ?_, ?_, ?_⟩
  · unfold edit_route_form
    rw [hauth]
    cases hf : db.routesets.find? (fun r => r.id == rid) with
    | none => simp
    | some rs => simp
  · unfold edit_route
    rw [hauth]
    cases hf : db.routesets.find? (fun r => r.id == rid) with
    | none => simp
    | some rs =>
        simp only [if_true, Option.some.injEq]
        constructor
        · intro h
          split at h <;> simp_all
        · intro h
          cases h
  · intro hsome hnocol
    obtain ⟨rs, hf⟩ := Option.isSome_iff_exists.mp hsome
    unfold edit_route
    rw [hauth, hf]
    have hany : db.routesets.any (fun r => r.id != rid && r.route == route) = false := by
      rw [List.any_eq_false]
      intro r hr
      simp only [Bool.and_eq_true, bne_iff_ne, beq_iff_eq, not_and, ne_eq]
      intro hne
      exact hnocol r hr hne
    simp [hany]
  · intro hsome hcol
    obtain ⟨rs, hf⟩ := Option.isSome_iff_exists.mp hsome
    obtain ⟨r, hr, hrne, hrroute⟩ := hcol
    unfold edit_route
    rw [hauth, hf]
    have hany : db.routesets.any (fun x => x.id != rid && x.route == route) = true := by
      rw [List.any_eq_true]
      exact ⟨r, hr, by simp [hrne, hrroute]⟩
    simp [hany]

/-- Concrete input for the amended C9: in `dbW` both the missing-id 404 and
the no-collision success hold. -/
theorem edit_route_spec_witness :
    (edit_route reqAuth dbW 99 "z" "t" 1 1 1 none).2 =
      Response.httpError 404 "Route not found" ∧
    (edit_route reqAuth dbW 2 "menu9" "t" 1 1 1 none).2 =
      Response.redirect "/admin/routes" 302 none :=
  ⟨((edit_route_spec reqAuth dbW 99 "z" "t" 1 1 1 none (by decide)).2.1).mpr (by decide),
   (edit_route_spec reqAuth dbW 2 "menu9" "t" 1 1 1 none (by decide)).2.2.1 (by decide) (by decide)⟩

/-- C10: authenticated `POST /admin/routes` with a `route` key already held
by an existing `RouteSet` fails with the uniqueness violation and changes
nothing — it neither overwrites nor duplicates; with a fresh key it appends
exactly one new row with that key; and route creation preserves the
invariant that `route` values are pairwise distinct. -/
theorem add_route_spec (req : Request) (db : DB) (route title : String)
    (rows cols timeout : Int) (bg : Option UploadFile)
    (hauth : is_authenticated req = true) :
    ((∃ rs ∈ db.routesets, rs.route = route) →
        add_route req db route title rows cols timeout bg =
          (db, Response.pyError "IntegrityError: UNIQUE constraint failed: routeset.route")) ∧
    ((¬ ∃ rs ∈ db.routesets, rs.route = route) →
        ∃ newRS : RouteSet,
          (add_route req db route title rows cols timeout bg).1.routesets =
            db.routesets ++ [newRS] ∧
          newRS.route = route ∧
          (add_route req db route title rows cols timeout bg).2 =
            Response.redirect "/admin/routes" 302 none) ∧
    (List.Pairwise (fun a b : RouteSet => a.route ≠ b.route) db.routesets →
        List.Pairwise (fun a b : RouteSet => a.route ≠ b.route)
          (add_route req db route title rows cols timeout bg).1.routesets) := by
  refine ⟨?_, ?_, ?_⟩
  · rintro ⟨rs, hmem, hroute⟩
    unfold add_route
    rw [hauth]
    have hany : db.routesets.any (fun r => r.route == route) = true :=
      List.any_eq_true.mpr ⟨rs, hmem, by simp [hroute]⟩
    simp [hany]
  · intro hnone
    unfold add_route
    rw [hauth]
    have hany : db.routesets.any (fun r => r.route == route) = false := by
      rw [List.any_eq_false]
      intro r hr
      simp only [beq_iff_eq]
      exact fun hc => hnone ⟨r, hr, hc⟩
    simp only [hany, if_true, Bool.false_eq_true, if_false]
    exact ⟨_, rfl, rfl, trivial⟩
  · intro hpw
    unfold add_route
    rw [hauth]
    cases hany : db.routesets.any (fun r => r.route == route) with
    | true => simpa [hany] using hpw
    | false =>
        simp only [hany, if_true, Bool.false_eq_true, if_false]
        rw [List.pairwise_append]
        refine ⟨hpw, List.pairwise_singleton _ _, ?_⟩
        intro a ha b hb
        rw [List.mem_singleton] at hb
        subst hb
        have := List.any_eq_false.mp hany a ha
        simpa using this

/-- Concrete input for C10: `dbW` already holds the key `menu1`, so an
authenticated creation with that key fails with the uniqueness violation
and leaves `dbW` unchanged. -/
theorem add_route_spec_witness :
    add_route reqAuth dbW "menu1" "t" 4 4 9 none =
      (dbW, Response.pyError "IntegrityError: UNIQUE constraint failed: routeset.route") :=
  (add_route_spec reqAuth dbW "menu1" "t" 4 4 9 none (by decide)).1
    ⟨⟨1, "menu1", "t", 2, 3, 5, none⟩, by decide, rfl⟩

/-- C1: when every comma-separated token of `order` parses as an integer,
authenticated `POST /admin/routes/{id}/assign` answers the
`/admin/routes/{id}/assign` redirect and fully replaces the route's
assignment set: afterwards the route's `RouteItem` rows carry exactly the
submitted item ids in submission order with positions `1..n` (already
stored in strictly ascending position order, so a position-ordered fetch
returns them as submitted), rows of every other route are untouched, and no
item id omitted from `order` remains associated with the route. -/
theorem post_assign_full_replace (req : Request) (db : DB) (rid : Int)
    (order : String) (ids : List Int)
    (hauth : is_authenticated req = true)
    (hids : parseTokens (pySplitComma order) = some ids) :
    (post_assign req db rid order).2 =
      Response.redirect ("/admin/routes/" ++ toString rid ++ "/assign") 302 none ∧
    ((post_assign req db rid order).1.routeitems.filter
        (fun ri => ri.route_id == rid)).map (fun ri => ri.item_id) = ids ∧
    ((post_assign req db rid order).1.routeitems.filter
        (fun ri => ri.route_id == rid)).map (fun ri => ri.position) = posList 1 ids.length ∧
    List.Pairwise (fun a b : RouteItem => a.position < b.position)
      ((post_assign req db rid order).1.routeitems.filter (fun ri => ri.route_id == rid)) ∧
    (post_assign req db rid order).1.routeitems.filter (fun ri => ri.route_id != rid) =
      db.routeitems.filter (fun ri => ri.route_id != rid) ∧
    (∀ x : Int, x ∉ ids → ∀ ri ∈ (post_assign req db rid order).1.routeitems,
        ri.route_id = rid → ri.item_id ≠ x) := by
  obtain ⟨rows, hrows, hitem, hpos, hrid⟩ :=
    insertAll_eq_some hids 1
      { db with routeitems := db.routeitems.filter (fun ri => ri.route_id != rid) }.nextRouteItemId
  have hstep : post_assign req db rid order =
      ({ db with
          routeitems := db.routeitems.filter (fun ri => ri.route_id != rid) ++ rows,
          nextRouteItemId := db.nextRouteItemId + rows.length },
       Response.redirect ("/admin/routes/" ++ toString rid ++ "/assign") 302 none) := by
    unfold post_assign
    rw [hauth]
    simp only [if_true]
    rw [hrows]
  have hfilterA :
      (db.routeitems.filter (fun ri => ri.route_id != rid)).filter
        (fun ri => ri.route_id == rid) = [] := by
    rw [List.filter_filter, List.filter_eq_nil_iff]
    intro ri _
    simp only [Bool.and_eq_true, beq_iff_eq, bne_iff_ne, ne_eq, not_and]
    intro he hne
    exact hne he
  have hfilterRows : rows.filter (fun ri => ri.route_id == rid) = rows := by
    rw [List.filter_eq_self]
    intro r hr
    simp [hrid r hr]
  have hfilterRowsNe : rows.filter (fun ri => ri.route_id != rid) = [] := by
    rw [List.filter_eq_nil_iff]
    intro r hr
    simp [hrid r hr]
  have hmain : (post_assign req db rid order).1.routeitems.filter
      (fun ri => ri.route_id == rid) = rows := by
    rw [hstep]
    simp only [List.filter_append, hfilterA, hfilterRows, List.nil_append]
  refine ⟨?_, ?_, ?_, ?_, ?_, ?_⟩
  · rw [hstep]
  · rw [hmain, hitem]
  · rw [hmain, hpos]
  · rw [hmain]
    have hp : List.Pairwise (fun a b : Int => a < b) (rows.map (fun r => r.position)) := by
      rw [hpos]
      exact posList_pairwise
    exact List.pairwise_map.mp hp
  · rw [hstep]
    simp only [List.filter_append, hfilterRowsNe, List.append_nil]
    rw [List.filter_filter]
    congr 1
    funext ri
    cases h : ri.route_id != rid <;> simp [h]
  · intro x hx ri hri hrideq
    rw [hstep] at hri
    simp only [List.mem_append] at hri
    rcases hri with hri | hri
    · obtain ⟨_, hne⟩ := List.mem_filter.mp hri
      rw [bne_iff_ne] at hne
      exact absurd hrideq hne
    · intro heq
      apply hx
      rw [← hitem]
      exact List.mem_map.mpr ⟨ri, hri, heq⟩

/-- Concrete input for C1: submitting `order="3,1,2"` for route 1 of `dbW`
(previously items 1,2) leaves exactly items 3,1,2 at positions 1,2,3 and
route 2 untouched. -/
theorem post_assign_full_replace_witness :
    (post_assign reqAuth dbW 1 "3,1,2").2 =
      Response.redirect ("/admin/routes/" ++ toString (1 : Int) ++ "/assign") 302 none ∧
    ((post_assign reqAuth dbW 1 "3,1,2").1.routeitems.filter
        (fun ri => ri.route_id == 1)).map (fun ri => ri.item_id) = [3, 1, 2] ∧
    ((post_assign reqAuth dbW 1 "3,1,2").1.routeitems.filter
        (fun ri => ri.route_id == 1)).map (fun ri => ri.position) = posList 1 3 ∧
    List.Pairwise (fun a b : RouteItem => a.position < b.position)
      ((post_assign reqAuth dbW 1 "3,1,2").1.routeitems.filter (fun ri => ri.route_id == 1)) ∧
    (post_assign reqAuth dbW 1 "3,1,2").1.routeitems.filter (fun ri => ri.route_id != 1) =
      dbW.routeitems.filter (fun ri => ri.route_id != 1) ∧
    (∀ x : Int, x ∉ ([3, 1, 2] : List Int) →
        ∀ ri ∈ (post_assign reqAuth dbW 1 "3,1,2").1.routeitems,
          ri.route_id = 1 → ri.item_id ≠ x) :=
  post_assign_full_replace reqAuth dbW 1 "3,1,2" [3, 1, 2] (by decide) (by decide)

/-- C7: the assignment replace is not atomic on error.  When some token of
`order` is not an integer literal (the empty string included, since
`"".split(",")` is `[""]`), the authenticated handler commits the delete of
the route's rows first and only then raises `ValueError` during
re-insertion, so the route's assignment set ends up emptied — not
unchanged — while rows of other routes survive. -/
theorem post_assign_error_after_delete (req : Request) (db : DB) (rid : Int)
    (order : String)
    (hauth : is_authenticated req = true)
    (hbad : parseTokens (pySplitComma order) = none) :
    (post_assign req db rid order).2 =
      Response.pyError "ValueError: invalid literal for int() with base 10" ∧
    (post_assign req db rid order).1.routeitems =
      db.routeitems.filter (fun ri => ri.route_id != rid) ∧
    (post_assign req db rid order).1.routeitems.filter (fun ri => ri.route_id == rid) = [] := by
  have hnone := insertAll_eq_none rid hbad 1
    { db with routeitems := db.routeitems.filter (fun ri => ri.route_id != rid) }.nextRouteItemId
  have hstep : post_assign req db rid order =
      ({ db with routeitems := db.routeitems.filter (fun ri => ri.route_id != rid) },
       Response.pyError "ValueError: invalid literal for int() with base 10") := by
    unfold post_assign
    rw [hauth]
    simp only [if_true]
    rw [hnone]
  refine ⟨by rw [hstep], by rw [hstep], ?_⟩
  rw [hstep]
  rw [List.filter_filter, List.filter_eq_nil_iff]
  intro ri _
  simp only [Bool.and_eq_true, beq_iff_eq, bne_iff_ne, ne_eq, not_and]
  intro he hne
  exact hne he

/-- Concrete input for C7: submitting the empty `order` for route 1 of
`dbW` (`"".split(",")` is `[""]` and `int("")` raises) errors out yet
leaves route 1 with no assignment rows, while route 2's row survives. -/
theorem post_assign_error_after_delete_witness :
    (post_assign reqAuth dbW 1 "").2 =
      Response.pyError "ValueError: invalid literal for int() with base 10" ∧
    (post_assign reqAuth dbW 1 "").1.routeitems =
      dbW.routeitems.filter (fun ri => ri.route_id != 1) ∧
    (post_assign reqAuth dbW 1 "").1.routeitems.filter (fun ri => ri.route_id == 1) = [] :=
  post_assign_error_after_delete reqAuth dbW 1 "" (by decide) (by decide)

/-- C4: the public view `GET /r/{route_name}` resolves the `RouteSet` by
exact `route` key — when no route carries the requested key the response is
the redirect to the configured default route — and renders, for a found
route whose links all resolve, exactly the route's `RouteItem` rows (a
permutation of the rows filtered by `route_id`) in ascending `position`
order, one rendered entry per row resolved to its `Item`. -/
theorem view_route_spec (cfg : Config) (db : DB) (name : String) (rs : RouteSet)
    (datas : List ItemData)
    (hfind : (db.routesets.filter (fun r => r.route == name)).head? = some rs)
    (hres : renderItems db (sortedLinks db rs) = some datas) :
    rs ∈ db.routesets ∧ rs.route = name ∧
    (sortedLinks db rs).Perm (db.routeitems.filter (fun ri => ri.route_id == rs.id)) ∧
    List.Sorted (fun a b : RouteItem => a.position ≤ b.position) (sortedLinks db rs) ∧
    List.Forall₂ (fun l d => resolveItem db l = some d) (sortedLinks db rs) datas ∧
    view_route cfg db name = ViewResult.render rs datas cfg.INACTIVITY_TIMEOUT ∧
    (∀ other : String, (∀ r ∈ db.routesets, r.route ≠ other) →
        view_route cfg db other = ViewResult.redirect ("/r/" ++ cfg.DEFAULT_ROUTE) 307) := by
  have hmem' : rs ∈ db.routesets.filter (fun r => r.route == name) :=
    List.mem_of_mem_head? (by rw [hfind]; exact rfl)
  obtain ⟨hmem, hbeq⟩ := List.mem_filter.mp hmem'
  refine ⟨hmem, by simpa using hbeq, ?_, ?_, renderItems_forall2 hres, ?_, ?_⟩
  · exact List.perm_insertionSort _ _
  · exact List.sorted_insertionSort _ _
  · unfold view_route
    rw [hfind]
    dsimp only
    unfold sortedLinks at hres
    rw [hres]
  · intro other hother
    unfold view_route
    have hnil : db.routesets.filter (fun r => r.route == other) = [] := by
      rw [List.filter_eq_nil_iff]
      intro r hr
      simp only [beq_iff_eq]
      exact hother r hr
    rw [hnil]
    rfl

/-- Concrete input for C4: `dbW` with `cfgW`; the key `menu1` renders items
1 then 2 in position order, and a key held by no route redirects to
`/r/menu1`. -/
theorem view_route_spec_witness :
    (⟨1, "menu1", "t", 2, 3, 5, none⟩ : RouteSet) ∈ dbW.routesets ∧
    (⟨1, "menu1", "t", 2, 3, 5, none⟩ : RouteSet).route = "menu1" ∧
    (sortedLinks dbW ⟨1, "menu1", "t", 2, 3, 5, none⟩).Perm
      (dbW.routeitems.filter (fun ri => ri.route_id == (1 : Int))) ∧
    List.Sorted (fun a b : RouteItem => a.position ≤ b.position)
      (sortedLinks dbW ⟨1, "menu1", "t", 2, 3, 5, none⟩) ∧
    List.Forall₂ (fun l d => resolveItem dbW l = some d)
      (sortedLinks dbW ⟨1, "menu1", "t", 2, 3, 5, none⟩)
      [⟨"A", "qa", "/media/icons/a.png"⟩, ⟨"B", "qb", "/media/icons/b.png"⟩] ∧
    view_route cfgW dbW "menu1" =
      ViewResult.render ⟨1, "menu1", "t", 2, 3, 5, none⟩
        [⟨"A", "qa", "/media/icons/a.png"⟩, ⟨"B", "qb", "/media/icons/b.png"⟩]
        cfgW.INACTIVITY_TIMEOUT ∧
    (∀ other : String, (∀ r ∈ dbW.routesets, r.route ≠ other) →
        view_route cfgW dbW other = ViewResult.redirect ("/r/" ++ cfgW.DEFAULT_ROUTE) 307) :=
  view_route_spec cfgW dbW "menu1" ⟨1, "menu1", "t", 2, 3, 5, none⟩
    [⟨"A", "qa", "/media/icons/a.png"⟩, ⟨"B", "qb", "/media/icons/b.png"⟩]
    (by decide) (by decide)
